import Mathlib

/- Verification of the LinkedIn image-saver bot (src/bot.py): a shallow
embedding of the image-extraction filter (LinkedInScraper.extract_images),
its deduplication pass, the browser-session lifecycle, and the quota-gated
delivery pipeline of handle_url. Pure Python string operations are modelled
over the character data of Lean strings; fallible external calls (Supabase
queries, Selenium steps, Telegram sends) are modelled by boolean failure
oracles supplied in an environment record. -/

set_option autoImplicit false

namespace Bot

/- Character-list substring machinery modelling the Python operators
`pat in s` and `s.startswith(pat)`, plus `s.lower()` and `s.strip()`. -/

/-- Models Python list-prefix test: `pat` is a prefix of `hay`. -/
def charsPrefixOf : List Char → List Char → Bool
  | [], _ => true
  | _ :: _, [] => false
  | a :: as, b :: bs => a == b && charsPrefixOf as bs

/-- Models the Python operator `pat in hay` (substring containment). -/
def charsSubOf (pat : List Char) : List Char → Bool
  | [] => charsPrefixOf pat []
  | hay@(_ :: rest) => charsPrefixOf pat hay || charsSubOf pat rest

/-- Models Python `pat in hay` on strings. -/
def strContainsSub (hay pat : String) : Bool :=
  charsSubOf pat.data hay.data

/-- Models Python `s.startswith(pre)`. -/
def strStartsWith (s pre : String) : Bool :=
  charsPrefixOf pre.data s.data

/-- Models Python `s.lower()` (character-wise lowering). -/
def strLower (s : String) : List Char :=
  s.data.map Char.toLower

/-- Models Python `s.strip()`: drop whitespace at both ends. -/
def pyStrip (s : String) : String :=
  String.mk (((s.data.dropWhile Char.isWhitespace).reverse.dropWhile Char.isWhitespace).reverse)

/- The image extractor: LinkedInScraper.extract_images, src/bot.py 118-260. -/

/-- The denylist `exclude_patterns` of bot.py lines 200-209. -/
def excludePatterns : List String :=
  ["linkedin.com/in/", "/company-logo/", "/vector/", "sprite", "logo", "icon", "emoji", "reaction"]

/-- Models `any(pattern in src.lower() for pattern in exclude_patterns)`
(bot.py line 212). -/
def shouldExclude (src : String) : Bool :=
  excludePatterns.any (fun p => charsSubOf p.data (strLower src))

/-- One `img` DOM element as observed through Selenium attribute reads.
`attrFail` models the src/alt reads (bot.py line 192) raising; `sizeFail`
models the width/height read or `int` conversion (lines 222-226) raising;
`width`/`height` are `none` when the attribute is missing or empty. -/
structure ImgElem where
  attrFail : Bool
  src : Option String
  alt : String
  sizeFail : Bool
  width : Option Nat
  height : Option Nat

/-- The per-element filtering of the main loop, bot.py lines 190-240:
skip on failed attribute read; skip when src is absent or a data: URL;
skip when the denylist matches the lowered URL; for http URLs, skip when
both dimensions are known and either is below 50; otherwise append. -/
def processElement (e : ImgElem) : Option String :=
  if e.attrFail then none
  else
    match e.src with
    | none => none
    | some src =>
      if strStartsWith src "data:" then none
      else if shouldExclude src then none
      else if strStartsWith src "http" then
        if e.sizeFail then some src
        else
          match e.width, e.height with
          | some w, some h => if w < 50 || h < 50 then none else some src
          | _, _ => some src
      else none

/-- The dedup loop of bot.py lines 248-253 with its `seen` set as a list. -/
def uniqAux (seen : List String) : List String → List String
  | [] => []
  | x :: xs => if x ∈ seen then uniqAux seen xs else x :: uniqAux (x :: seen) xs

/-- Remove duplicates while preserving order (bot.py lines 247-253). -/
def uniqueImages (l : List String) : List String :=
  uniqAux [] l

/-- Modelled from the spec words for deduplication: the output keeps each
URL once, at the position of its first occurrence (later occurrences are
filtered away). Used as the specification side of claim C8. -/
def specFirstOccurrences : List String → List String
  | [] => []
  | x :: xs => x :: specFirstOccurrences (xs.filter (fun y => y ≠ x))
termination_by l => l.length
decreasing_by
  simp only [List.length_cons]
  exact Nat.lt_succ_of_le (List.length_filter_le _ _)

/- Browser-session lifecycle of extract_images. The routine builds a
Selenium driver (lines 121-134), runs an anti-detection script (line 137),
then enters an inner try whose except logs Selenium errors (line 242) and
whose finally quits the driver (line 245); the whole body sits in an outer
try whose except returns the empty list (lines 258-260). Each step that can
raise is modelled by a failure flag in ScrapeWorld. -/

/-- Failure oracle for one run of extract_images. `serviceFail` models
ChromeDriverManager().install()/Service raising (line 133), `createFail`
the webdriver.Chrome construction raising (line 134), `antiDetectFail` the
execute_script call raising (line 137), `navFail` any failure of the inner
block before the element loop (get/sleep/scroll/find_elements, caught at
line 242), `quitFail` driver.quit raising in the finally (line 245). -/
structure ScrapeWorld where
  serviceFail : Bool
  createFail : Bool
  antiDetectFail : Bool
  navFail : Bool
  elements : List ImgElem
  quitFail : Bool

/-- Observable driver lifecycle of one run: whether webdriver.Chrome
completed, and whether driver.quit was invoked before returning. -/
structure DriverState where
  created : Bool
  quitCalled : Bool
deriving DecidableEq

/-- The body of extract_images inside the outer try (bot.py 120-256):
`Except.error` means an exception is propagating to the outer handler at
line 258. The anti-detection script at line 137 runs after the driver is
created but outside the inner try/finally, so its failure propagates with
the driver never quit. -/
def extractBody (w : ScrapeWorld) : Except Unit (List String) × DriverState :=
  if w.serviceFail then (Except.error (), ⟨false, false⟩)
  else if w.createFail then (Except.error (), ⟨false, false⟩)
  else if w.antiDetectFail then (Except.error (), ⟨true, false⟩)
  else
    let images := if w.navFail then [] else w.elements.filterMap processElement
    if w.quitFail then (Except.error (), ⟨true, true⟩)
    else (Except.ok (uniqueImages images), ⟨true, true⟩)

/-- extract_images with its outer try/except (bot.py 120, 258-260): every
escaping exception is caught and the empty list is returned. The result
keeps the `Except` type so that "never raises" is a provable statement
rather than one true by type alone. -/
def extract_images (w : ScrapeWorld) : Except Unit (List String) × DriverState :=
  match extractBody w with
  | (Except.ok l, d) => (Except.ok l, d)
  | (Except.error _, d) => (Except.ok [], d)

/- The Telegram handler handle_url (bot.py 375-462) and its delivery loop,
modelled as a trace of externally visible effects. -/

/-- The fixed outbound messages of handle_url, by reply site. `found`
carries the image count (line 417), `complete` carries success count,
failed count and remaining downloads (lines 450-456). -/
inductive Msg where
  | errorCreatingUser
  | limitReached
  | invalidUrl
  | processing
  | noImages
  | found (n : Nat)
  | complete (s f remaining : Nat)
  | failedAll
deriving DecidableEq

/-- Externally visible effects of one handle_url run, in order. -/
inductive Ev where
  | reply (m : Msg)
  | editMsg (m : Msg)
  | extractCall
  | sendPhoto (i : Nat) (url : String) (ok : Bool)
  | sendText (i : Nat) (url : String) (ok : Bool)
  | sleep
  | logUsage (n : Nat)
deriving DecidableEq

/-- Environment of one handle_url run. `userCreated` models
get_or_create_user returning a row (line 377); `usageQueryFail` models the
Supabase query inside get_today_usage raising (line 106); `usageCount` is
the store's answer when the query succeeds; `extracted` is the list
returned by extract_images; `photoOk i` models send_photo succeeding for
item i (line 425); `textOk i` models the fallback send_message succeeding
(line 437). -/
structure HandlerEnv where
  userCreated : Bool
  usageQueryFail : Bool
  usageCount : Nat
  text : String
  extracted : List String
  photoOk : Nat → Bool
  textOk : Nat → Bool

/-- get_today_usage (bot.py 93-108): the count of today's usage rows, or 0
when the query raises (the except at line 106 returns 0). -/
def get_today_usage (env : HandlerEnv) : Nat :=
  if env.usageQueryFail then 0 else env.usageCount

/-- The delivery loop of handle_url (bot.py 423-443) over the enumerated
image list, carrying the success and failed counters. A successful
send_photo is followed by time.sleep(1) (line 431); a failed send_photo
falls to the except branch, which attempts the plain-text fallback and
continues without sleeping. Returns the event trace and both counters. -/
def sendLoop (photoOk textOk : Nat → Bool) (s f : Nat) : List (Nat × String) → List Ev × Nat × Nat
  | [] => ([], s, f)
  | (i, url) :: rest =>
    if photoOk i then
      let r := sendLoop photoOk textOk (s + 1) f rest
      (Ev.sendPhoto i url true :: Ev.sleep :: r.1, r.2)
    else
      let r := sendLoop photoOk textOk s (f + 1) rest
      (Ev.sendPhoto i url false :: Ev.sendText i url (textOk i) :: r.1, r.2)

/-- The extraction-and-delivery tail of handle_url (bot.py 402-458): the
processing reply, the extract_images call, the empty-result edit or the
found-N edit followed by the delivery loop over the first 10 images, the
conditional usage-log write, and the final reply. -/
def handleExtraction (env : HandlerEnv) : List Ev :=
  Ev.reply Msg.processing :: Ev.extractCall ::
    (if env.extracted.isEmpty then [Ev.editMsg Msg.noImages]
     else
       let images := env.extracted.take 10
       let r := sendLoop env.photoOk env.textOk 0 0 images.enum
       Ev.editMsg (Msg.found images.length) ::
         (r.1 ++
           (if 0 < r.2.1 ∨ 0 < r.2.2 then [Ev.logUsage r.2.1] else []) ++
           [if 0 < r.2.1 then
              Ev.reply (Msg.complete r.2.1 r.2.2 (4 - get_today_usage env))
            else Ev.reply Msg.failedAll]))

/-- handle_url (bot.py 375-462): user upsert gate, daily-limit gate against
get_today_usage, URL validation on the stripped text, then extraction and
delivery. -/
def handle_url (env : HandlerEnv) : List Ev :=
  if !env.userCreated then [Ev.reply Msg.errorCreatingUser]
  else if 5 ≤ get_today_usage env then [Ev.reply Msg.limitReached]
  else if !(strContainsSub (pyStrip env.text) "linkedin.com") then [Ev.reply Msg.invalidUrl]
  else handleExtraction env

/-- Projection of a trace to its usage-log writes. -/
def logEvents (tr : List Ev) : List Nat :=
  tr.filterMap (fun e => match e with | Ev.logUsage n => some n | _ => none)

/-- Projection of a trace to the attempted rich-media sends, with index,
url and outcome. -/
def photoAttempts (tr : List Ev) : List (Nat × String × Bool) :=
  tr.filterMap (fun e => match e with | Ev.sendPhoto i u ok => some (i, u, ok) | _ => none)

/-- Audit predicate for delay placement: true when every successful
send_photo is immediately followed by a sleep, and sleeps occur nowhere
else in the trace. -/
def delaysExactlyAfterSuccesses : List Ev → Bool
  | [] => true
  | Ev.sendPhoto _ _ true :: Ev.sleep :: rest => delaysExactlyAfterSuccesses rest
  | Ev.sendPhoto _ _ true :: _ => false
  | Ev.sleep :: _ => false
  | _ :: rest => delaysExactlyAfterSuccesses rest

/- Concrete fixture environments used by the witness and counterexample
theorems below. -/

/-- A run whose single media send fails and whose fallback succeeds. -/
def envPhotoFail : HandlerEnv :=
  { userCreated := true, usageQueryFail := false, usageCount := 0,
    text := "https://www.linkedin.com/posts/abc",
    extracted := ["https://media.licdn.com/img1"],
    photoOk := fun _ => false, textOk := fun _ => true }

/-- Three candidates, the second media send fails, its fallback succeeds. -/
def envPartial : HandlerEnv :=
  { userCreated := true, usageQueryFail := false, usageCount := 0,
    text := "https://www.linkedin.com/posts/p",
    extracted := ["https://a/1", "https://a/2", "https://a/3"],
    photoOk := fun i => i != 1, textOk := fun _ => true }

/-- Fifteen accepted candidates, all sends succeed. -/
def envMany : HandlerEnv :=
  { userCreated := true, usageQueryFail := false, usageCount := 0,
    text := "https://www.linkedin.com/posts/m",
    extracted := List.replicate 15 "https://a/img",
    photoOk := fun _ => true, textOk := fun _ => true }

/-- A user with exactly five usage events recorded today. -/
def envLimit : HandlerEnv :=
  { userCreated := true, usageQueryFail := false, usageCount := 5,
    text := "https://www.linkedin.com/posts/l",
    extracted := [], photoOk := fun _ => true, textOk := fun _ => true }

/-- A store outage during the quota query, for a heavily used account. -/
def envStoreDown : HandlerEnv :=
  { userCreated := true, usageQueryFail := true, usageCount := 9,
    text := "https://www.linkedin.com/posts/q",
    extracted := [], photoOk := fun _ => true, textOk := fun _ => true }

/- Helper lemmas. -/

theorem processElement_not_excluded (e : ImgElem) (u : String)
    (h : processElement e = some u) : shouldExclude u = false := by
  obtain ⟨af, src?, alt, sf, w?, h?⟩ := e
  cases af with
  | true => simp [processElement] at h
  | false =>
    cases src? with
    | none => simp [processElement] at h
    | some src =>
      by_cases hd : strStartsWith src "data:" = true
      · simp [processElement, hd] at h
      · by_cases hx : shouldExclude src = true
        · simp [processElement, hd, hx] at h
        · have hsx : shouldExclude src = false := by
            cases hcb : shouldExclude src
            · rfl
            · exact absurd hcb hx
          have hu : u = src := by
            by_cases hh : strStartsWith src "http" = true
            · cases sf with
              | true =>
                simp [processElement, hd, hx, hh] at h
                exact h.symm
              | false =>
                cases w? with
                | none =>
                  simp [processElement, hd, hx, hh] at h
                  exact h.symm
                | some w =>
                  cases h? with
                  | none =>
                    simp [processElement, hd, hx, hh] at h
                    exact h.symm
                  | some ht =>
                    simp only [processElement, hd, hx, hh, Bool.false_eq_true,
                      if_false, if_true] at h
                    split_ifs at h
                    exact (Option.some.inj h).symm
            · simp [processElement, hd, hx, hh] at h
          exact hu ▸ hsx

theorem specFirstOccurrences_cons (x : String) (xs : List String) :
    specFirstOccurrences (x :: xs) = x :: specFirstOccurrences (xs.filter (fun y => y ≠ x)) := by
  rw [specFirstOccurrences.eq_def]

theorem uniqAux_eq_firstOccurrences (l : List String) :
    ∀ seen, uniqAux seen l = specFirstOccurrences (l.filter (fun y => y ∉ seen)) := by
  induction l with
  | nil => intro seen; simp [uniqAux, specFirstOccurrences]
  | cons x xs ih =>
    intro seen
    by_cases hx : x ∈ seen
    · simp [uniqAux, hx, List.filter_cons, ih seen]
    · have hfc : (x :: xs).filter (fun y => y ∉ seen) =
        x :: xs.filter (fun y => y ∉ seen) := by
        simp [List.filter_cons, hx]
      rw [uniqAux, if_neg hx, hfc, specFirstOccurrences_cons, ih (x :: seen)]
      congr 1
      rw [List.filter_filter]
      have hfe : List.filter (fun a => decide (a ≠ x) && decide (a ∉ seen)) xs
          = List.filter (fun y => decide (y ∉ x :: seen)) xs := by
        apply List.filter_congr
        intro y _
        by_cases hyx : y = x
        · simp [hyx, hx]
        · by_cases hys : y ∈ seen <;> simp [hyx, hys]
      rw [hfe]

theorem uniqAux_count (l : List String) :
    ∀ (seen : List String) (x : String),
      (uniqAux seen l).count x = if x ∈ seen then 0 else min (l.count x) 1 := by
  induction l with
  | nil => intro seen x; by_cases h : x ∈ seen <;> simp [uniqAux, h]
  | cons y ys ih =>
    intro seen x
    by_cases hy : y ∈ seen
    · rw [uniqAux, if_pos hy, ih]
      by_cases hx : x ∈ seen
      · simp [hx]
      · have hxy : ¬ x = y := fun hc => hx (hc ▸ hy)
        simp [hx, List.count_cons, hxy]
    · rw [uniqAux, if_neg hy, List.count_cons, ih]
      by_cases hxy : x = y
      · subst hxy
        simp only [List.mem_cons, true_or, if_true, hy, if_false, List.count_cons,
          beq_self_eq_true, Nat.min_def]
        split_ifs <;> omega
      · have hyx : ¬ y = x := fun hc => hxy hc.symm
        have hmem : (x ∈ y :: seen) ↔ x ∈ seen := by
          simp [List.mem_cons, hxy]
        by_cases hx : x ∈ seen
        · simp [hmem, hx, hxy, hyx]
        · simp [hmem, hx, hxy, hyx, List.count_cons]

theorem filter_length_split {α : Type} (p : α → Bool) (l : List α) :
    (l.filter p).length + (l.filter (fun a => !(p a))).length = l.length := by
  induction l with
  | nil => rfl
  | cons a l ih => by_cases h : p a <;> simp [List.filter_cons, h] <;> omega

theorem sendLoop_success (p t : Nat → Bool) :
    ∀ (l : List (Nat × String)) (s f : Nat),
      (sendLoop p t s f l).2.1 = s + (l.filter (fun q => p q.1)).length := by
  intro l
  induction l with
  | nil => intro s f; simp [sendLoop]
  | cons q rest ih =>
    intro s f
    obtain ⟨i, url⟩ := q
    by_cases h : p i <;> (simp [sendLoop, h, ih, List.filter_cons]; try omega)

theorem sendLoop_failed (p t : Nat → Bool) :
    ∀ (l : List (Nat × String)) (s f : Nat),
      (sendLoop p t s f l).2.2 = f + (l.filter (fun q => !(p q.1))).length := by
  intro l
  induction l with
  | nil => intro s f; simp [sendLoop]
  | cons q rest ih =>
    intro s f
    obtain ⟨i, url⟩ := q
    by_cases h : p i <;> (simp [sendLoop, h, ih, List.filter_cons]; try omega)

theorem sendLoop_photoAttempts (p t : Nat → Bool) :
    ∀ (l : List (Nat × String)) (s f : Nat),
      photoAttempts (sendLoop p t s f l).1 = l.map (fun q => (q.1, q.2, p q.1)) := by
  intro l
  induction l with
  | nil => intro s f; simp [sendLoop, photoAttempts]
  | cons q rest ih =>
    intro s f
    obtain ⟨i, url⟩ := q
    by_cases h : p i <;>
      simp [sendLoop, h, photoAttempts, List.filterMap_cons] <;>
      simpa [photoAttempts] using ih _ _

theorem sendLoop_logEvents (p t : Nat → Bool) :
    ∀ (l : List (Nat × String)) (s f : Nat),
      logEvents (sendLoop p t s f l).1 = [] := by
  intro l
  induction l with
  | nil => intro s f; simp [sendLoop, logEvents]
  | cons q rest ih =>
    intro s f
    obtain ⟨i, url⟩ := q
    by_cases h : p i <;>
      simp [sendLoop, h, logEvents, List.filterMap_cons] <;>
      simpa [logEvents] using ih _ _

theorem sendLoop_sleep_count (p t : Nat → Bool) :
    ∀ (l : List (Nat × String)) (s f : Nat),
      (sendLoop p t s f l).1.count Ev.sleep = (l.filter (fun q => p q.1)).length := by
  intro l
  induction l with
  | nil => intro s f; simp [sendLoop]
  | cons q rest ih =>
    intro s f
    obtain ⟨i, url⟩ := q
    by_cases h : p i <;> simp [sendLoop, h, List.count_cons, List.filter_cons, ih]

theorem sendLoop_delays (p t : Nat → Bool) :
    ∀ (l : List (Nat × String)) (s f : Nat),
      delaysExactlyAfterSuccesses (sendLoop p t s f l).1 = true := by
  intro l
  induction l with
  | nil => intro s f; rfl
  | cons q rest ih =>
    intro s f
    obtain ⟨i, url⟩ := q
    by_cases h : p i
    · simpa [sendLoop, h, delaysExactlyAfterSuccesses] using ih (s + 1) f
    · simpa [sendLoop, h, delaysExactlyAfterSuccesses] using ih s (f + 1)

/- Claim theorems. -/

/-- Claim C1: every image element whose source URL contains a denylist
substring (case-insensitively, against the full URL) is excluded from the
Extractor output regardless of its width and height; equivalently, every
URL the per-element filter accepts is denylist-clean, so no matching URL
can appear in the filtered element list. -/
theorem denylist_excludes_regardless_of_size (attrF sizeF : Bool)
    (src alt : String) (w h : Option Nat) (hx : shouldExclude src = true) :
    processElement ⟨attrF, some src, alt, sizeF, w, h⟩ = none
    ∧ ∀ elems : List ImgElem, src ∉ elems.filterMap processElement := by
  constructor
  · cases attrF with
    | true => simp [processElement]
    | false =>
      by_cases hd : strStartsWith src "data:" = true
      · simp [processElement, hd]
      · simp [processElement, hd, hx]
  · intro elems hmem
    obtain ⟨e, _, he⟩ := List.mem_filterMap.mp hmem
    have hf : shouldExclude src = false := processElement_not_excluded e src he
    rw [hx] at hf
    exact absurd hf (by simp)

/-- Claim C1 witness: a 500x400 element whose URL contains the
company-logo marker is dropped. -/
theorem denylist_excludes_witness :
    processElement ⟨false, some "https://media.licdn.com/company-logo/a.png", "", false,
      some 500, some 400⟩ = none :=
  (denylist_excludes_regardless_of_size false false
    "https://media.licdn.com/company-logo/a.png" "" (some 500) (some 400) (by decide)).1

/-- Claim C2: for an element that passed the data:, denylist and http
checks, and whose size attributes read without error: when both dimensions
are known and either is below 50 the element is dropped; when both are at
least 50 it is accepted; when either dimension is missing it is accepted
(never dropped on size grounds). -/
theorem size_filter_spec (src alt : String) (w h : Nat)
    (h1 : strStartsWith src "data:" = false)
    (h2 : shouldExclude src = false)
    (h3 : strStartsWith src "http" = true) :
    (w < 50 ∨ h < 50 →
      processElement ⟨false, some src, alt, false, some w, some h⟩ = none)
    ∧ (50 ≤ w → 50 ≤ h →
      processElement ⟨false, some src, alt, false, some w, some h⟩ = some src)
    ∧ (∀ wo : Option Nat,
      processElement ⟨false, some src, alt, false, wo, none⟩ = some src)
    ∧ (∀ ho : Option Nat,
      processElement ⟨false, some src, alt, false, none, ho⟩ = some src) := by
  refine ⟨?_, ?_, ?_, ?_⟩
  · intro hlt
    have hc : (decide (w < 50) || decide (h < 50)) = true := by
      cases hlt with
      | inl hw => simp [hw]
      | inr hh => simp [hh]
    simp [processElement, h1, h2, h3, hc]
  · intro hw hh
    have hc : (decide (w < 50) || decide (h < 50)) = false := by
      simp [Nat.not_lt.mpr hw, Nat.not_lt.mpr hh]
    simp [processElement, h1, h2, h3, hc]
  · intro wo
    cases wo <;> simp [processElement, h1, h2, h3]
  · intro ho
    cases ho <;> simp [processElement, h1, h2, h3]

/-- Claim C2 witness: a 30x200 content image is dropped for size. -/
theorem size_filter_witness :
    processElement ⟨false, some "https://media.licdn.com/dms/image/a.png", "", false,
      some 30, some 200⟩ = none :=
  (size_filter_spec "https://media.licdn.com/dms/image/a.png" "" 30 200
    (by decide) (by decide) (by decide)).1 (Or.inl (by decide))

/-- Claim C5 (code bug): when the anti-detection execute_script call at
bot.py line 137 raises after the driver has been created, the outer except
returns the empty list with driver.quit never invoked: the routine returns
with the browser session still open, contradicting the unconditional
release the spec states. -/
theorem driver_leak_on_antidetect_failure :
    extract_images ⟨false, false, true, false, [], false⟩ =
      (Except.ok [], ⟨true, false⟩) := rfl

/-- Claim C6: extract_images never propagates an exception to its caller:
for every world it returns normally, with either the empty list or the
deduplicated list of images collected from the element loop. -/
theorem extract_never_raises (w : ScrapeWorld) :
    (extract_images w).1 = Except.ok []
    ∨ (extract_images w).1 =
        Except.ok (uniqueImages (w.elements.filterMap processElement)) := by
  unfold extract_images extractBody
  by_cases h1 : w.serviceFail <;> by_cases h2 : w.createFail <;>
    by_cases h3 : w.antiDetectFail <;> by_cases h4 : w.navFail <;>
    by_cases h5 : w.quitFail <;>
    simp [h1, h2, h3, h4, h5, uniqueImages, uniqAux]

/-- Claim C8: the dedup pass keeps exactly the first occurrences: it
agrees with the first-occurrence specification, and each URL occurs in the
output exactly min(original count, 1) times. -/
theorem dedup_first_seen (l : List String) :
    uniqueImages l = specFirstOccurrences l
    ∧ ∀ x : String, (uniqueImages l).count x = min (l.count x) 1 := by
  constructor
  · rw [uniqueImages, uniqAux_eq_firstOccurrences]
    congr 1
    simp
  · intro x
    rw [uniqueImages, uniqAux_count]
    simp

/-- Claim C9 counterexample: a run with a single candidate whose media
send fails (and whose URL fallback succeeds) performs one delivery attempt
and contains no sleep at all, refuting the claim that a delay follows
every delivery attempt. -/
theorem sleep_missing_after_failed_send :
    (handle_url envPhotoFail).count Ev.sleep = 0
    ∧ photoAttempts (handle_url envPhotoFail) =
        [(0, "https://media.licdn.com/img1", false)] :=
  ⟨by decide, by decide⟩

/-- Claim C9 (amended): in the delivery loop, the fixed delay is inserted
after each successful media send and only there; failed media-send
attempts (with or without their URL fallback) proceed to the next item
without any delay, so the number of sleeps equals the number of successful
sends. -/
theorem delay_only_after_success (p t : Nat → Bool) (l : List (Nat × String)) (s f : Nat) :
    delaysExactlyAfterSuccesses (sendLoop p t s f l).1 = true
    ∧ (sendLoop p t s f l).1.count Ev.sleep = (l.filter (fun q => p q.1)).length :=
  ⟨sendLoop_delays p t l s f, sendLoop_sleep_count p t l s f⟩

/- Trace-projection distribution lemmas. -/

@[simp] theorem logEvents_nil : logEvents [] = [] := rfl

@[simp] theorem logEvents_append (a b : List Ev) :
    logEvents (a ++ b) = logEvents a ++ logEvents b := by
  simp [logEvents]

@[simp] theorem logEvents_reply (m : Msg) (tr : List Ev) :
    logEvents (Ev.reply m :: tr) = logEvents tr := by
  simp [logEvents]

@[simp] theorem logEvents_edit (m : Msg) (tr : List Ev) :
    logEvents (Ev.editMsg m :: tr) = logEvents tr := by
  simp [logEvents]

@[simp] theorem logEvents_extract (tr : List Ev) :
    logEvents (Ev.extractCall :: tr) = logEvents tr := by
  simp [logEvents]

@[simp] theorem logEvents_log (n : Nat) (tr : List Ev) :
    logEvents (Ev.logUsage n :: tr) = n :: logEvents tr := by
  simp [logEvents]

@[simp] theorem photoAttempts_nil : photoAttempts [] = [] := rfl

@[simp] theorem photoAttempts_append (a b : List Ev) :
    photoAttempts (a ++ b) = photoAttempts a ++ photoAttempts b := by
  simp [photoAttempts]

@[simp] theorem photoAttempts_reply (m : Msg) (tr : List Ev) :
    photoAttempts (Ev.reply m :: tr) = photoAttempts tr := by
  simp [photoAttempts]

@[simp] theorem photoAttempts_edit (m : Msg) (tr : List Ev) :
    photoAttempts (Ev.editMsg m :: tr) = photoAttempts tr := by
  simp [photoAttempts]

@[simp] theorem photoAttempts_extract (tr : List Ev) :
    photoAttempts (Ev.extractCall :: tr) = photoAttempts tr := by
  simp [photoAttempts]

@[simp] theorem photoAttempts_log (n : Nat) (tr : List Ev) :
    photoAttempts (Ev.logUsage n :: tr) = photoAttempts tr := by
  simp [photoAttempts]

theorem handle_url_proceeds (env : HandlerEnv) (h1 : env.userCreated = true)
    (h2 : get_today_usage env < 5)
    (h3 : strContainsSub (pyStrip env.text) "linkedin.com" = true) :
    handle_url env = handleExtraction env := by
  unfold handle_url
  rw [h1, h3]
  simp [Nat.not_le.mpr h2]

theorem extracted_isEmpty_false (env : HandlerEnv) (hne : env.extracted ≠ []) :
    env.extracted.isEmpty = false := by
  cases hext : env.extracted with
  | nil => exact absurd hext hne
  | cons a as => simp [hext]

/-- Claim C3: once the user row exists, a request with today's usage count
at least 5 yields exactly the limit-reached reply: no extraction call, no
media delivery, no usage-log write. -/
theorem quota_gate_blocks (env : HandlerEnv) (h1 : env.userCreated = true)
    (h2 : 5 ≤ get_today_usage env) :
    handle_url env = [Ev.reply Msg.limitReached]
    ∧ Ev.extractCall ∉ handle_url env
    ∧ photoAttempts (handle_url env) = []
    ∧ logEvents (handle_url env) = [] := by
  have heq : handle_url env = [Ev.reply Msg.limitReached] := by
    unfold handle_url
    rw [h1]
    simp [h2]
  refine ⟨heq, ?_, ?_, ?_⟩
  · rw [heq]; simp
  · rw [heq]; simp [photoAttempts]
  · rw [heq]; simp [logEvents]

/-- Claim C3 witness: a user with exactly five events today is blocked. -/
theorem quota_gate_witness : handle_url envLimit = [Ev.reply Msg.limitReached] :=
  (quota_gate_blocks envLimit rfl (by decide)).1

/-- Claim C4: when delivery runs on a non-empty truncated candidate list,
the success counter equals the number of items whose media send succeeded
(fallback sends never count), the failure counter equals the number of
failed media sends, and the trace carries exactly one usage-log write,
with the success count; a request with no candidates writes no log. -/
theorem delivery_counts_single_log (env : HandlerEnv) (h1 : env.userCreated = true)
    (h2 : get_today_usage env < 5)
    (h3 : strContainsSub (pyStrip env.text) "linkedin.com" = true) :
    (env.extracted ≠ [] →
      (sendLoop env.photoOk env.textOk 0 0 (env.extracted.take 10).enum).2.1 =
        (((env.extracted.take 10).enum).filter (fun q => env.photoOk q.1)).length
      ∧ (sendLoop env.photoOk env.textOk 0 0 (env.extracted.take 10).enum).2.2 =
        (((env.extracted.take 10).enum).filter (fun q => !(env.photoOk q.1))).length
      ∧ logEvents (handle_url env) =
        [(((env.extracted.take 10).enum).filter (fun q => env.photoOk q.1)).length])
    ∧ (env.extracted = [] → logEvents (handle_url env) = []) := by
  have hred : handle_url env = handleExtraction env := handle_url_proceeds env h1 h2 h3
  constructor
  · intro hne
    have hs := sendLoop_success env.photoOk env.textOk (env.extracted.take 10).enum 0 0
    have hf := sendLoop_failed env.photoOk env.textOk (env.extracted.take 10).enum 0 0
    rw [Nat.zero_add] at hs hf
    refine ⟨hs, hf, ?_⟩
    have hie := extracted_isEmpty_false env hne
    have hsum := filter_length_split (fun q => env.photoOk q.1) (env.extracted.take 10).enum
    have hlen : (env.extracted.take 10).enum.length = (env.extracted.take 10).length :=
      List.enum_length
    have hpos : 0 < (env.extracted.take 10).length := by
      have := List.length_pos.mpr hne
      rw [List.length_take]
      omega
    have hcond : 0 < (sendLoop env.photoOk env.textOk 0 0 (env.extracted.take 10).enum).2.1
        ∨ 0 < (sendLoop env.photoOk env.textOk 0 0 (env.extracted.take 10).enum).2.2 := by
      omega
    rw [hred]
    unfold handleExtraction
    rw [hie]
    simp only [Bool.false_eq_true, if_false]
    rw [if_pos hcond]
    simp only [logEvents_reply, logEvents_extract, logEvents_edit, logEvents_append,
      logEvents_log, logEvents_nil, List.append_nil, List.nil_append]
    rw [sendLoop_logEvents, hs]
    split <;> rfl
  · intro hempty
    rw [hred]
    unfold handleExtraction
    simp [hempty, logEvents]

/-- Claim C4 witness: three candidates, the second media send fails and
its URL fallback succeeds; exactly one usage log, with success count 2. -/
theorem delivery_counts_witness : logEvents (handle_url envPartial) = [2] := by
  have h := ((delivery_counts_single_log envPartial rfl (by decide) (by decide)).1
    (by decide)).2.2
  exact h.trans (by decide)

/-- Claim C7: with more than 10 candidates, the pipeline attempts delivery
for exactly the first 10 items in order (the trace's media-send attempts
are precisely the enumeration of the first 10 URLs) and the two counters
sum to exactly 10. -/
theorem delivery_cap_ten (env : HandlerEnv) (h1 : env.userCreated = true)
    (h2 : get_today_usage env < 5)
    (h3 : strContainsSub (pyStrip env.text) "linkedin.com" = true)
    (h4 : 10 < env.extracted.length) :
    photoAttempts (handle_url env) =
      ((env.extracted.take 10).enum).map (fun q => (q.1, q.2, env.photoOk q.1))
    ∧ (photoAttempts (handle_url env)).length = 10
    ∧ (sendLoop env.photoOk env.textOk 0 0 (env.extracted.take 10).enum).2.1
      + (sendLoop env.photoOk env.textOk 0 0 (env.extracted.take 10).enum).2.2 = 10 := by
  have hne : env.extracted ≠ [] := by
    intro hc
    rw [hc] at h4
    simp at h4
  have hred : handle_url env = handleExtraction env := handle_url_proceeds env h1 h2 h3
  have hie := extracted_isEmpty_false env hne
  have hlen10 : (env.extracted.take 10).length = 10 := by
    rw [List.length_take]
    omega
  have hattempts : photoAttempts (handle_url env) =
      ((env.extracted.take 10).enum).map (fun q => (q.1, q.2, env.photoOk q.1)) := by
    rw [hred]
    unfold handleExtraction
    rw [hie]
    simp only [Bool.false_eq_true, if_false]
    simp only [photoAttempts_reply, photoAttempts_extract, photoAttempts_edit,
      photoAttempts_append]
    rw [sendLoop_photoAttempts]
    have hrest : photoAttempts
        (if 0 < (sendLoop env.photoOk env.textOk 0 0 (env.extracted.take 10).enum).2.1
            ∨ 0 < (sendLoop env.photoOk env.textOk 0 0 (env.extracted.take 10).enum).2.2
         then [Ev.logUsage (sendLoop env.photoOk env.textOk 0 0 (env.extracted.take 10).enum).2.1]
         else []) = [] := by
      split <;> simp [photoAttempts]
    rw [hrest]
    have hfinal : photoAttempts
        [if 0 < (sendLoop env.photoOk env.textOk 0 0 (env.extracted.take 10).enum).2.1
         then Ev.reply (Msg.complete
            (sendLoop env.photoOk env.textOk 0 0 (env.extracted.take 10).enum).2.1
            (sendLoop env.photoOk env.textOk 0 0 (env.extracted.take 10).enum).2.2
            (4 - get_today_usage env))
         else Ev.reply Msg.failedAll] = [] := by
      split <;> simp [photoAttempts]
    rw [hfinal]
    simp
  refine ⟨hattempts, ?_, ?_⟩
  · rw [hattempts, List.length_map, List.enum_length, hlen10]
  · have hs := sendLoop_success env.photoOk env.textOk (env.extracted.take 10).enum 0 0
    have hf := sendLoop_failed env.photoOk env.textOk (env.extracted.take 10).enum 0 0
    have hsum := filter_length_split (fun q => env.photoOk q.1) (env.extracted.take 10).enum
    have hlen : (env.extracted.take 10).enum.length = (env.extracted.take 10).length :=
      List.enum_length
    omega

/-- Claim C7 witness: fifteen accepted candidates produce exactly ten
delivery attempts. -/
theorem delivery_cap_witness : (photoAttempts (handle_url envMany)).length = 10 :=
  (delivery_cap_ten envMany rfl (by decide) (by decide) (by decide)).2.1

/-- Claim C10: a failing quota query makes get_today_usage return 0, so
the limit check passes and extraction proceeds even for a heavily used
account (fail-open), while a failed user upsert blocks the request with an
error reply. -/
theorem fail_open_quota (env : HandlerEnv) (h1 : env.userCreated = true)
    (h2 : env.usageQueryFail = true)
    (h3 : strContainsSub (pyStrip env.text) "linkedin.com" = true) :
    get_today_usage env = 0
    ∧ Ev.extractCall ∈ handle_url env
    ∧ ∀ env2 : HandlerEnv, env2.userCreated = false →
        handle_url env2 = [Ev.reply Msg.errorCreatingUser] := by
  have hq : get_today_usage env = 0 := by simp [get_today_usage, h2]
  have h5 : get_today_usage env < 5 := by rw [hq]; omega
  refine ⟨hq, ?_, ?_⟩
  · rw [handle_url_proceeds env h1 h5 h3]
    unfold handleExtraction
    simp
  · intro env2 hc
    unfold handle_url
    rw [hc]
    simp

/-- Claim C10 witness: with the store down, a user with nine recorded
events still reaches the extraction call. -/
theorem fail_open_witness :
    get_today_usage envStoreDown = 0 ∧ Ev.extractCall ∈ handle_url envStoreDown :=
  ⟨(fail_open_quota envStoreDown rfl rfl (by decide)).1,
   (fail_open_quota envStoreDown rfl rfl (by decide)).2.1⟩

end Bot
